import Mathlib

/-!
Formal model of the process supervisor in `src/service-container.ts`
(class `ServiceContainer`) and of `taskKill` in `src/cmd.ts`, from the
`@astronautlabs/windows` repository.

The supervisor keeps a child process alive: it launches the child, watches
its exit events, and applies a restart policy (backoff growth, a restart
rate limit over an anchored 60-second window, a total retry budget,
abort-on-error, and graceful-vs-forced shutdown).

The embedding is a shallow one: each method of `ServiceContainer`
(`launch`, `monitor`, the child `exit` handler, `killkid`, and the two
`setTimeout` callbacks) becomes a pure function from supervisor state to
supervisor state plus a list of observable actions (log writes, forks of
the child, `process.exit`, `child.kill()` and `child.send('shutdown')`
calls).  Timestamps and wait durations are rationals (milliseconds, as in
the JavaScript source where `Date.now()` and `setTimeout` operate in
milliseconds and the wait is a floating-point number).  Event delivery
(child exits, timer firings, POSIX-style termination signals,
`uncaughtException`) is modelled by a `step` function over a timed event
trace, with `run` folding a trace.
-/

namespace Windows

/-- Log levels of the `Logger` in `src/eventlog.ts`, as used by
`ServiceContainer` (`this.log[logLevel](msg)`). -/
inductive Level
  | info
  | warn
  | error
  | auditSuccess
  | auditFailure
  deriving DecidableEq

/-- Observable side effects of the supervisor: log writes, forking the
child script, terminating the supervisor process (`process.exit()`),
force-killing the child (`child.kill()`), and sending the cooperative
shutdown message (`child.send('shutdown')`). -/
inductive Action
  | log (lvl : Level) (msg : String)
  | fork
  | processExit
  | sendShutdown
  | killChild
  deriving DecidableEq

/-- Policy configuration of `ServiceContainer`, after the defaulting done
by the field initializers (`this.maxRestarts = options.maxRestarts ?? 5`,
`this.maxRetries = options.maxRetries ?? -1`, `this.wait =
(options.restartDelay ?? 1) * 1000`, `this.grow =
(options.restartDelayGrowth ?? 0.25) + 1`, ...).  Fields that do not
influence the restart state machine (args, cwd, environment, event-log
channel, log source) are omitted; they are payload of the `fork` action. -/
structure Config where
  script : String
  maxRestarts : Int
  maxRetries : Int
  restartDelay : ℚ
  restartDelayGrowth : ℚ
  abortOnError : Bool
  stopParentFirst : Bool
  deriving DecidableEq

/-- The growth factor `this.grow = (options.restartDelayGrowth ?? 0.25) + 1`. -/
def growC (cfg : Config) : ℚ := cfg.restartDelayGrowth + 1

/-- The constant `MAX = 60` of `service-container.ts` (seconds of the
restart-rate window). -/
def MAXQ : ℚ := 60

/-- Mutable state of a `ServiceContainer` instance.  `child` mirrors
`this.child !== null`; `liveChildren` counts actually-live forked child
processes (the OS-level truth, which can differ from the single `child`
field when `launch` is invoked while a child is alive).  `pendingRestartAt`
and `windowTimerAt` record the scheduled firing times of the two
`setTimeout` timers (the restart timer of `monitor` and the
window-reset timer of `launch`).  `terminated` records that
`process.exit()` has run. -/
structure SupState where
  child : Bool
  liveChildren : Nat
  starts : Nat
  wait : ℚ
  attempts : Nat
  startTime : ℚ
  forcekill : Bool
  terminated : Bool
  pendingRestartAt : Option ℚ
  windowTimerAt : Option ℚ
  deriving DecidableEq

/-- State at construction time (`this.child = null; this.starts = 0;
this.wait = (restartDelay) * 1000; this.attempts = 0; this.startTime = 0;
this.forcekill = false`). -/
def initState (cfg : Config) : SupState :=
  { child := false
    liveChildren := 0
    starts := 0
    wait := cfg.restartDelay * 1000
    attempts := 0
    startTime := 0
    forcekill := false
    terminated := false
    pendingRestartAt := none
    windowTimerAt := none }

/-- Message logged by `launch` when `forcekill` is set. -/
def processKilledMsg : String := "Process killed"

/-- Message logged by the exit handler: `this.script + ' stopped running.'`. -/
def stoppedMsg (cfg : Config) : String := cfg.script ++ " stopped running."

/-- JavaScript string interpolation of an exit code that may be `null`. -/
def codeText : Option Int → String
  | none => "null"
  | some n => toString n

/-- Abort-on-error message of the exit handler. -/
def abortErrMsg (cfg : Config) (code : Option Int) : String :=
  cfg.script ++ " exited with error code " ++ codeText code

/-- Rate-limit message of `monitor`. -/
def rateLimitMsg : String :=
  "Too many restarts within the last 60 seconds. Please check the script."

/-- Retry-budget message of the restart-timer callback in `monitor`. -/
def maxRetriesMsg (cfg : Config) : String :=
  "Too many restarts. " ++ cfg.script ++
    " will not be restarted because the maximum number of total restarts has been exceeded."

/-- Restart log message of the restart-timer callback (it interpolates the
already-grown `this.wait` and the incremented `this.attempts`). -/
def restartMsg (wait : ℚ) (attempts : Nat) : String :=
  "Restarted " ++ toString wait ++ " msecs after unexpected exit; attempts = " ++
    toString attempts

/-- Warning of `killkid` when no child handle is set. -/
def killWarnMsg : String := "Attempted to kill an unrecognized process."

/-- The `launch` method (lines 120-146 of `service-container.ts`): if
`forcekill` is set, log "Process killed" and do nothing else; otherwise
log the given message (the source guards `if (logLevel && msg)`, and
`logLevel` is always a truthy string, so only emptiness of `msg`
matters), anchor the rate window if `startTime === 0` (also scheduling
the window-reset timer `(MAX * 1000) + 1` ms later), increment `starts`,
and fork the child. -/
def launch (cfg : Config) (now : ℚ) (lvl : Level) (msg : String) (s : SupState) :
    SupState × List Action :=
  if s.forcekill then
    (s, [Action.log Level.info processKilledMsg])
  else
    let logActs : List Action := if msg = "" then [] else [Action.log lvl msg]
    let s1 :=
      if s.startTime = 0 then
        { s with startTime := now, windowTimerAt := some (now + MAXQ * 1000 + 1) }
      else s
    ({ s1 with
        starts := s1.starts + 1
        child := true
        liveChildren := s1.liveChildren + 1 },
     logActs ++ [Action.fork])

/-- The window-reset `setTimeout` callback registered by `launch`
(`this.startTime = 0; this.starts = 0;`). -/
def windowTimerFire (s : SupState) : SupState × List Action :=
  ({ s with startTime := 0, starts := 0, windowTimerAt := none }, [])

/-- The `monitor` method (lines 86-112): when no child handle is set,
terminate if `this.starts >= this.maxRestarts` and
`Date.now() - MAX * 1000 <= this.startTime`, else schedule the restart
timer `this.wait` ms later; when a child handle is set, set `attempts`
to 0 and multiply `wait` by 1000 (the source's own comment reads "reset
attempts and wait time"). -/
def monitor (cfg : Config) (now : ℚ) (s : SupState) : SupState × List Action :=
  if s.child = false then
    if cfg.maxRestarts ≤ (s.starts : Int) ∧ now - MAXQ * 1000 ≤ s.startTime then
      ({ s with terminated := true },
       [Action.log Level.error rateLimitMsg, Action.processExit])
    else
      ({ s with pendingRestartAt := some (now + s.wait) }, [])
  else
    ({ s with attempts := 0, wait := s.wait * 1000 }, [])

/-- The restart-timer `setTimeout` callback of `monitor` (lines 97-106):
grow `wait`, increment `attempts`, terminate when
`attempts > maxRetries && maxRetries >= 0`, otherwise relaunch with a
warning message. -/
def restartTimerFire (cfg : Config) (now : ℚ) (s : SupState) : SupState × List Action :=
  let s1 := { s with
      wait := s.wait * growC cfg
      attempts := s.attempts + 1
      pendingRestartAt := none }
  if cfg.maxRetries < (s1.attempts : Int) ∧ 0 ≤ cfg.maxRetries then
    ({ s1 with terminated := true },
     [Action.log Level.error (maxRetriesMsg cfg), Action.processExit])
  else
    launch cfg now Level.warn (restartMsg s1.wait s1.attempts) s1

/-- The child `exit` handler registered by `launch` (lines 149-164): log
the stopped warning; if `code !== 0` and `abortOnError`, log the error and
`process.exit()`; else if `forcekill`, `process.exit()`; otherwise clear
the child handle and run `monitor`.  The exit event means an OS child
died, so `liveChildren` drops by one in every branch; in the two
terminating branches the source exits before `this.child = null` runs, so
`child` keeps its value there. -/
def childExit (cfg : Config) (code : Option Int) (now : ℚ) (s : SupState) :
    SupState × List Action :=
  let a0 := Action.log Level.warn (stoppedMsg cfg)
  if code ≠ some 0 ∧ cfg.abortOnError = true then
    ({ s with terminated := true, liveChildren := s.liveChildren - 1 },
     [a0, Action.log Level.error (abortErrMsg cfg code), Action.processExit])
  else if s.forcekill = true then
    ({ s with terminated := true, liveChildren := s.liveChildren - 1 }, [a0, Action.processExit])
  else
    let s1 := { s with child := false, liveChildren := s.liveChildren - 1 }
    let r := monitor cfg now s1
    (r.1, a0 :: r.2)

/-- The `killkid` method (lines 167-178): set `forcekill`, then either
send the shutdown message (`stopParentFirst`), force-kill the child, or
log a warning when no child handle is set. -/
def killkid (cfg : Config) (s : SupState) : SupState × List Action :=
  let s1 := { s with forcekill := true }
  if s1.child = true then
    if cfg.stopParentFirst = true then
      (s1, [Action.sendShutdown])
    else
      (s1, [Action.killChild])
  else
    (s1, [Action.log Level.warn killWarnMsg])

/-- The `start` method (lines 58-69): register the signal handlers
(modelled as `Event.shutdownSignal` and `Event.uncaughtException` below)
and launch the script with the starting message. -/
def startSup (cfg : Config) (now : ℚ) : SupState × List Action :=
  launch cfg now Level.info ("Starting " ++ cfg.script) (initState cfg)

/-- External events delivered to the supervisor: a child exit (with the
exit code, `none` for a signal-caused `null` code), the firing of the two
timers, a termination signal (SIGINT/SIGTERM/exit, all wired to
`killkid`), and an `uncaughtException` in the wrapper (wired to
`launch('warn', err.message)`). -/
inductive Event
  | childExit (code : Option Int)
  | restartFire
  | windowFire
  | shutdownSignal
  | uncaughtException (msg : String)

/-- One delivery of an event at time `now`.  After `process.exit()` the
supervisor is gone, so a terminated state absorbs every event.  An exit
event can only come from a live child; each timer fires only at its
scheduled time and is consumed. -/
def step (cfg : Config) (s : SupState) (now : ℚ) (e : Event) : SupState × List Action :=
  if s.terminated then (s, [])
  else
    match e with
    | Event.childExit code =>
        if s.liveChildren = 0 then (s, []) else childExit cfg code now s
    | Event.restartFire =>
        match s.pendingRestartAt with
        | some t => if t = now then restartTimerFire cfg now s else (s, [])
        | none => (s, [])
    | Event.windowFire =>
        match s.windowTimerAt with
        | some t => if t = now then windowTimerFire s else (s, [])
        | none => (s, [])
    | Event.shutdownSignal => killkid cfg s
    | Event.uncaughtException msg => launch cfg now Level.warn msg s

/-- Fold a timed event trace, collecting every action with the time of the
event that produced it. -/
def run (cfg : Config) : SupState → List (ℚ × Event) → SupState × List (ℚ × Action)
  | s, [] => (s, [])
  | s, (t, e) :: evs =>
      let r := step cfg s t e
      let rest := run cfg r.1 evs
      (rest.1, r.2.map (fun a => (t, a)) ++ rest.2)

/-- Times at which the child script was forked. -/
def forkTimes (l : List (ℚ × Action)) : List ℚ :=
  l.filterMap (fun p =>
    match p.2 with
    | Action.fork => some p.1
    | _ => none)

/-- JavaScript runtime values, as far as `taskKill` in `src/cmd.ts`
needs them: the argument `pid` is a number, `isNaN(pid)` is a boolean,
and `typeof` of anything is a string. -/
inductive JSVal
  | bool (b : Bool)
  | num (q : ℚ)
  | str (s : String)
  deriving DecidableEq

/-- The JavaScript `typeof` operator on the values above. -/
def typeofJS : JSVal → String
  | JSVal.bool _ => "boolean"
  | JSVal.num _ => "number"
  | JSVal.str _ => "string"

/-- JavaScript truthiness: `false`, `0` (and `NaN`), and `""` are falsy;
rationals model the non-`NaN` numbers. -/
def truthy : JSVal → Bool
  | JSVal.bool b => b
  | JSVal.num q => q != 0
  | JSVal.str s => s != ""

/-- The global `isNaN` applied to a (non-`NaN`) number: always `false`,
wrapped as a JavaScript boolean value. -/
def isNaNJS (q : ℚ) : JSVal := JSVal.bool false

/-- Outcome of `taskKill`: one of its two thrown `Error`s, or the
execution of the `taskkill` command line. -/
inductive TaskKillOutcome
  | errPidRequired
  | errPidMustBeNumber
  | execCommand (cmd : String)
  deriving DecidableEq

/-- The `taskKill` function of `src/cmd.ts` (lines 23-33): throw
`'PID is required for the kill operation.'` when `!pid`; throw
`'PID must be a number.'` when `typeof isNaN(pid)` is truthy (the source
tests `typeof isNaN(pid)`, the string `"boolean"`); otherwise run the
`taskkill` command. -/
def taskKill (pid : ℚ) (force : Bool) : TaskKillOutcome :=
  if ¬ truthy (JSVal.num pid) then
    TaskKillOutcome.errPidRequired
  else if truthy (JSVal.str (typeofJS (isNaNJS pid))) then
    TaskKillOutcome.errPidMustBeNumber
  else
    TaskKillOutcome.execCommand
      ("taskkill /PID " ++ toString pid ++ (if force then " /f" else ""))

/-- Forcekill flag after `launch` equals the flag before. -/
lemma launch_forcekill_eq (cfg : Config) (now : ℚ) (lvl : Level) (msg : String)
    (s : SupState) : (launch cfg now lvl msg s).1.forcekill = s.forcekill := by
  simp only [launch]
  repeat' split
  all_goals rfl

/-- Forcekill flag after the exit handler equals the flag before. -/
lemma childExit_forcekill_eq (cfg : Config) (code : Option Int) (now : ℚ)
    (s : SupState) : (childExit cfg code now s).1.forcekill = s.forcekill := by
  simp only [childExit, monitor]
  repeat' split
  all_goals rfl

/-- Forcekill flag after the restart-timer callback equals the flag before. -/
lemma restartTimerFire_forcekill_eq (cfg : Config) (now : ℚ) (s : SupState) :
    (restartTimerFire cfg now s).1.forcekill = s.forcekill := by
  simp only [restartTimerFire]
  split
  · rfl
  · exact launch_forcekill_eq ..

/-- The forcekill flag is sticky: no event delivery ever clears it. -/
lemma step_forcekill_sticky (cfg : Config) (s : SupState) (now : ℚ) (e : Event)
    (h : s.forcekill = true) : (step cfg s now e).1.forcekill = true := by
  cases e <;>
    simp only [step, killkid, windowTimerFire] <;>
    repeat' split
  all_goals
    first
      | exact h
      | rfl
      | exact (childExit_forcekill_eq ..).trans h
      | exact (restartTimerFire_forcekill_eq ..).trans h
      | exact (launch_forcekill_eq ..).trans h

/-- With the forcekill flag set, `launch` never forks. -/
lemma launch_no_fork (cfg : Config) (now : ℚ) (lvl : Level) (msg : String)
    (s : SupState) (h : s.forcekill = true) :
    Action.fork ∉ (launch cfg now lvl msg s).2 := by
  simp [launch, h]

/-- The exit handler itself never forks. -/
lemma childExit_no_fork (cfg : Config) (code : Option Int) (now : ℚ) (s : SupState) :
    Action.fork ∉ (childExit cfg code now s).2 := by
  simp only [childExit, monitor]
  repeat' split
  all_goals simp

/-- With the forcekill flag set, the restart-timer callback never forks. -/
lemma restartTimerFire_no_fork (cfg : Config) (now : ℚ) (s : SupState)
    (h : s.forcekill = true) : Action.fork ∉ (restartTimerFire cfg now s).2 := by
  simp only [restartTimerFire]
  split
  · simp
  · exact launch_no_fork _ _ _ _ _ h

/-- With the forcekill flag set, no event delivery forks a child. -/
lemma step_no_fork (cfg : Config) (s : SupState) (now : ℚ) (e : Event)
    (h : s.forcekill = true) : Action.fork ∉ (step cfg s now e).2 := by
  cases e <;>
    simp only [step, killkid, windowTimerFire] <;>
    repeat' split
  all_goals
    first
      | simp
      | exact childExit_no_fork cfg _ now s
      | exact restartTimerFire_no_fork cfg now s h
      | exact launch_no_fork cfg now Level.warn _ s h

/-- With the forcekill flag set, no fork appears anywhere in the rest of
the run. -/
lemma run_no_fork (cfg : Config) (evs : List (ℚ × Event)) (s : SupState)
    (h : s.forcekill = true) : ∀ p ∈ (run cfg s evs).2, p.2 ≠ Action.fork := by
  induction evs generalizing s with
  | nil => simp [run]
  | cons te evs ih =>
    intro p hp
    simp only [run, List.mem_append] at hp
    rcases hp with hp | hp
    · rcases List.mem_map.mp hp with ⟨a, ha, rfl⟩
      exact fun hc => step_no_fork cfg s te.1 te.2 h (hc ▸ ha)
    · exact ih _ (step_forcekill_sticky cfg s te.1 te.2 h) p hp

/-- Configuration used by the claim C1 scenario: defaults of
`ServiceContainer` (`maxRestarts` 5, `maxRetries` -1, `restartDelay` 1 s,
`restartDelayGrowth` 0.25, `abortOnError` and `stopParentFirst` off). -/
def c1cfg : Config :=
  { script := "app.js"
    maxRestarts := 5
    maxRetries := -1
    restartDelay := 1
    restartDelayGrowth := 1/4
    abortOnError := false
    stopParentFirst := false }

/-- State after starting the supervisor at t = 1000 ms and delivering a
termination signal at t = 2000 ms (so `forcekill` is set and the child is
still live). -/
def c1state : SupState :=
  (run c1cfg (startSup c1cfg 1000).1 [(2000, Event.shutdownSignal)]).1

/-- Run for the claim C1 counterexample: start, termination signal, then
the child exit that the signal-induced kill causes. -/
def c1run : SupState × List (ℚ × Action) :=
  run c1cfg (startSup c1cfg 1000).1
    [(2000, Event.shutdownSignal), (2500, Event.childExit (some 0))]

/-- Claim C1, counterexample: processing an exit event while
`forceKillRequested` is set terminates the supervisor, but the log
"Process killed" is never written on this path — the exit handler logs
only the stopped-running warning before `process.exit()` (the
"Process killed" log lives in `launch`, which only runs if a launch is
attempted after the flag is set). -/
theorem c1_counterexample :
    c1run.2 = [(2000, Action.killChild),
               (2500, Action.log Level.warn (stoppedMsg c1cfg)),
               (2500, Action.processExit)]
    ∧ c1run.1.terminated = true
    ∧ c1run.1.forcekill = true
    ∧ (c1run.2.map Prod.snd).count (Action.log Level.info processKilledMsg) = 0 := by
  decide

/-- Claim C1 (amended): for every exit event observed while
`forceKillRequested` is already set, the supervisor reaches TERMINAL
without relaunching, regardless of the exit code and of whether
`abortOnError` is configured, but it does not log "process killed" there
(no info-level log is written by the exit handler); more generally, no
restart (no new child launch) ever fires after `forceKillRequested` has
been set — the "Process killed" log is what a suppressed launch attempt
writes instead. -/
theorem c1_forcekill_exit_terminal (cfg : Config) (s : SupState) (code : Option Int)
    (now : ℚ) (evs : List (ℚ × Event)) (h : s.forcekill = true) :
    (childExit cfg code now s).1.terminated = true
    ∧ (∀ m, Action.log Level.info m ∉ (childExit cfg code now s).2)
    ∧ Action.fork ∉ (childExit cfg code now s).2
    ∧ ∀ p ∈ (run cfg s evs).2, p.2 ≠ Action.fork := by
  refine ⟨?_, ?_, childExit_no_fork cfg code now s, run_no_fork cfg evs s h⟩
  · simp only [childExit, monitor]
    repeat' split
    all_goals first | rfl | simp_all
  · intro m
    simp only [childExit, monitor]
    repeat' split
    all_goals simp

/-- Claim C1 witness: the amended theorem evaluated on the concrete
forcekilled state of the counterexample scenario. -/
theorem c1_forcekill_exit_terminal_witness :
    c1state.forcekill = true
    ∧ (childExit c1cfg (some 0) 2500 c1state).1.terminated = true :=
  ⟨by decide, (c1_forcekill_exit_terminal c1cfg c1state (some 0) 2500 [] (by decide)).1⟩

/-- Configuration for the claim C7 witness (stop-parent-first off; the
witness flips the flag per case). -/
def c7cfgStop : Config :=
  { script := "app.js"
    maxRestarts := 5
    maxRetries := -1
    restartDelay := 1
    restartDelayGrowth := 1/4
    abortOnError := false
    stopParentFirst := false }

/-- A state with a live child, for the claim C7 witness. -/
def c7live : SupState :=
  { child := true
    liveChildren := 1
    starts := 1
    wait := 1000
    attempts := 0
    startTime := 1000
    forcekill := false
    terminated := false
    pendingRestartAt := none
    windowTimerAt := some 61001 }

/-- Claim C7: on a termination request, a live child with
`stopParentFirst` gets exactly the cooperative shutdown message (no
forced kill); a live child without `stopParentFirst` gets exactly the
forced kill (no message); with no live child the only action is a logged
warning (no crash, no child operation). -/
theorem c7_killkid_cases (cfg : Config) (s : SupState) :
    (killkid cfg s).1 = { s with forcekill := true }
    ∧ (s.child = true → cfg.stopParentFirst = true →
        (killkid cfg s).2 = [Action.sendShutdown])
    ∧ (s.child = true → cfg.stopParentFirst = false →
        (killkid cfg s).2 = [Action.killChild])
    ∧ (s.child = false → (killkid cfg s).2 = [Action.log Level.warn killWarnMsg]) := by
  refine ⟨?_, ?_, ?_, ?_⟩ <;>
    simp only [killkid] <;>
    repeat' split
  all_goals simp_all

/-- Claim C7 witness: the three cases of `killkid` exercised on concrete
states. -/
theorem c7_killkid_cases_witness :
    (killkid { c7cfgStop with stopParentFirst := true } c7live).2 = [Action.sendShutdown]
    ∧ (killkid c7cfgStop c7live).2 = [Action.killChild]
    ∧ (killkid c7cfgStop { c7live with child := false }).2
        = [Action.log Level.warn killWarnMsg] :=
  ⟨(c7_killkid_cases { c7cfgStop with stopParentFirst := true } c7live).2.1 rfl rfl,
   (c7_killkid_cases c7cfgStop c7live).2.2.1 rfl rfl,
   (c7_killkid_cases c7cfgStop { c7live with child := false }).2.2.2 rfl⟩

/-- Configuration for the claim C8 counterexample. -/
def c8cfg : Config :=
  { script := "app.js"
    maxRestarts := 5
    maxRetries := -1
    restartDelay := 1
    restartDelayGrowth := 1/4
    abortOnError := false
    stopParentFirst := false }

/-- A state with a live child, for the claim C8 counterexample. -/
def c8live : SupState :=
  { child := true
    liveChildren := 1
    starts := 1
    wait := 1000
    attempts := 0
    startTime := 1000
    forcekill := false
    terminated := false
    pendingRestartAt := none
    windowTimerAt := some 61001 }

/-- Claim C8, counterexample: with a live child and `stopParentFirst`
off, a second delivery of the termination request issues the forced-kill
operation a second time — repeated signals are not free of duplicate kill
operations. -/
theorem c8_counterexample :
    (killkid c8cfg c8live).2 = [Action.killChild]
    ∧ (killkid c8cfg (killkid c8cfg c8live).1).2 = [Action.killChild] := by
  decide

/-- Claim C8 (amended): repeated termination requests are idempotent on
the supervisor state (`forceKillRequested` is set by the first delivery
and only stays true) and never crash, and each repeated delivery performs
exactly the same operations as the first — in particular, while the child
handle is still set, the kill (or shutdown-message) operation is issued
again rather than suppressed. -/
theorem c8_killkid_idempotent_state (cfg : Config) (s : SupState) :
    (killkid cfg (killkid cfg s).1).1 = (killkid cfg s).1
    ∧ (killkid cfg (killkid cfg s).1).2 = (killkid cfg s).2
    ∧ (killkid cfg s).1.forcekill = true := by
  refine ⟨?_, ?_, ?_⟩ <;>
    simp only [killkid] <;>
    repeat' split
  all_goals simp_all

/-- Claim C10: `taskKill` throws before executing any command: a falsy
pid (0) raises the pid-required error, every other pid raises the
must-be-a-number error (its guard tests `typeof isNaN(pid)`, the
always-truthy string `"boolean"`), and no `taskkill` command line is ever
executed. -/
theorem c10_taskKill_always_throws (pid : ℚ) (force : Bool) :
    (pid = 0 → taskKill pid force = TaskKillOutcome.errPidRequired)
    ∧ (pid ≠ 0 → taskKill pid force = TaskKillOutcome.errPidMustBeNumber)
    ∧ ∀ cmd, taskKill pid force ≠ TaskKillOutcome.execCommand cmd := by
  refine ⟨fun h => ?_, fun h => ?_, fun cmd => ?_⟩
  · simp [taskKill, truthy, h]
  · simp [taskKill, truthy, typeofJS, isNaNJS, h]
  · by_cases hp : pid = 0
    · simp [taskKill, truthy, hp]
    · simp [taskKill, truthy, typeofJS, isNaNJS, hp]

/-- Claim C10 witness: both error paths at concrete pids. -/
theorem c10_taskKill_always_throws_witness :
    taskKill 0 true = TaskKillOutcome.errPidRequired
    ∧ taskKill 12345 false = TaskKillOutcome.errPidMustBeNumber :=
  ⟨(c10_taskKill_always_throws 0 true).1 rfl,
   (c10_taskKill_always_throws 12345 false).2.1 (by norm_num)⟩

/-- Configuration for the claim C2 counterexample: `maxRestarts` 2, no
retry cap, 1-second delay, no growth. -/
def cfg2 : Config :=
  { script := "app.js"
    maxRestarts := 2
    maxRetries := -1
    restartDelay := 1
    restartDelayGrowth := 0
    abortOnError := false
    stopParentFirst := false }

/-- Event trace for the claim C2 counterexample: the child exits just
before the anchored window timer fires, the timer resets `starts` at
t = 61001 ms, and two further exit/restart rounds follow immediately. -/
def c2events : List (ℚ × Event) :=
  [(59000, Event.childExit (some 1)),
   (60000, Event.restartFire),
   (61001, Event.windowFire),
   (61500, Event.childExit (some 1)),
   (62500, Event.restartFire),
   (63000, Event.childExit (some 1)),
   (64000, Event.restartFire)]

/-- Run for the claim C2 counterexample. -/
def c2run : SupState × List (ℚ × Action) :=
  run cfg2 (startSup cfg2 1000).1 c2events

/-- Claim C2, counterexample: with `maxRestarts = 2`, the supervisor
performs three restarts (forks at t = 60000, 62500 and 64000 ms) inside a
4-second span — far less than one 60-second rolling window — because the
window is anchored: the window timer reset `starts` to 0 at t = 61001 ms
while restarting continued.  The rolling-window bound of the claim is
violated. -/
theorem c2_counterexample :
    forkTimes c2run.2 = [60000, 62500, 64000]
    ∧ cfg2.maxRestarts = 2
    ∧ ((64000 : ℚ) - 60000 < MAXQ * 1000)
    ∧ c2run.1.terminated = false := by
  norm_num [c2run, c2events, run, step, startSup, launch, initState, childExit,
    monitor, restartTimerFire, windowTimerFire, cfg2, MAXQ, growC, forkTimes,
    List.filterMap]

/-- Claim C2 (amended): when an exit event reaches the rate limiter (the
forcekill and abort-on-error branches not taken) with
`startsInWindow >= maxRestarts` and less than 60 seconds elapsed since
`windowStart`, the supervisor logs the fatal rate-limit message and
terminates instead of scheduling another restart.  The universal bound —
at most `maxRestarts` restarts in every 60-second rolling window — does
not hold, because `starts` and `startTime` are reset by an anchored
timer, not a rolling window (see the counterexample). -/
theorem c2_rate_limit_terminal (cfg : Config) (s : SupState) (code : Option Int)
    (now : ℚ)
    (hk : s.forcekill = false)
    (hc : code = some 0 ∨ cfg.abortOnError = false)
    (hs : cfg.maxRestarts ≤ (s.starts : Int))
    (ht : now - s.startTime < MAXQ * 1000) :
    (childExit cfg code now s).1.terminated = true
    ∧ (childExit cfg code now s).2
        = [Action.log Level.warn (stoppedMsg cfg),
           Action.log Level.error rateLimitMsg, Action.processExit]
    ∧ (childExit cfg code now s).1.pendingRestartAt = s.pendingRestartAt := by
  have hc' : ¬(code ≠ some 0 ∧ cfg.abortOnError = true) := by
    rcases hc with h | h <;> simp [h]
  have ht' : now - MAXQ * 1000 ≤ s.startTime := by linarith
  simp only [childExit, monitor]
  rw [if_neg hc', if_neg (by simp [hk])]
  simp [hs, ht']

/-- State for the claim C2 witness: five starts already counted in a
window opened 1 second ago. -/
def c2wState : SupState :=
  { child := true
    liveChildren := 1
    starts := 5
    wait := 1000
    attempts := 0
    startTime := 1000
    forcekill := false
    terminated := false
    pendingRestartAt := none
    windowTimerAt := some 61001 }

/-- Claim C2 witness: the rate limiter fires on a concrete exit. -/
theorem c2_rate_limit_terminal_witness :
    c2wState.forcekill = false
    ∧ cfg2.maxRestarts ≤ (c2wState.starts : Int)
    ∧ (childExit cfg2 (some 1) 2000 c2wState).1.terminated = true :=
  ⟨rfl, by norm_num [cfg2, c2wState],
   (c2_rate_limit_terminal cfg2 c2wState (some 1) 2000 rfl (Or.inr rfl)
     (by norm_num [cfg2, c2wState])
     (by norm_num [c2wState, MAXQ])).1⟩

/-- Configuration for the claim C3 run: the `ServiceContainer` defaults. -/
def cfg3 : Config :=
  { script := "app.js"
    maxRestarts := 5
    maxRetries := -1
    restartDelay := 1
    restartDelayGrowth := 1/4
    abortOnError := false
    stopParentFirst := false }

/-- Run for claim C3: start at t = 1 s; the child exits abnormally at
t = 2 s and is restarted at t = 3 s (growing the wait to 1250 ms and
setting `attempts` to 1); the restarted child then stays alive
continuously until t = 70 s — more than a full 60-second window — during
which the anchored window timer fires at t = 61.001 s; then the child
exits. -/
def c3run : SupState × List (ℚ × Action) :=
  run cfg3 (startSup cfg3 1000).1
    [(2000, Event.childExit (some 1)),
     (3000, Event.restartFire),
     (61001, Event.windowFire),
     (70000, Event.childExit (some 1))]

/-- Claim C3, code divergence: after the child has remained alive
continuously for (more than) the full 60-second rolling window, the next
exit is processed with `attempts` still 1 (not reset to 0) and the wait
still 1250 ms (not reset to the base `restartDelay` of 1000 ms): the next
restart is scheduled 1250 ms after the exit at t = 70 s.  Only `starts`
(and the window anchor) were reset, by the anchored window timer.  The
source's own comment in `monitor` reads "reset attempts and wait time",
but that branch is unreachable (`monitor` only runs after
`this.child = null`) and its body multiplies the wait by 1000 instead of
resetting it. -/
theorem c3_no_reset_after_stable_window :
    c3run.1.attempts = 1
    ∧ c3run.1.wait = 1250
    ∧ c3run.1.pendingRestartAt = some 71250
    ∧ cfg3.restartDelay * 1000 = 1000
    ∧ c3run.1.starts = 0 := by
  norm_num [c3run, run, step, startSup, launch, initState, childExit, monitor,
    restartTimerFire, windowTimerFire, cfg3, MAXQ, growC]

/-- Configuration of claim C5's Scenario A: `maxRetries` 2, `maxRestarts`
5, `restartDelay` 1 s, growth 0. -/
def cfg5 : Config :=
  { script := "app.js"
    maxRestarts := 5
    maxRetries := 2
    restartDelay := 1
    restartDelayGrowth := 0
    abortOnError := false
    stopParentFirst := false }

/-- Run of Scenario A: three rapid abnormal exits. -/
def c5run : SupState × List (ℚ × Action) :=
  run cfg5 (startSup cfg5 1000).1
    [(1100, Event.childExit (some 1)),
     (2100, Event.restartFire),
     (2200, Event.childExit (some 1)),
     (3200, Event.restartFire),
     (3300, Event.childExit (some 1)),
     (4300, Event.restartFire)]

/-- Claim C5: every restart-timer firing increments `attempts`, and when
`maxRetries >= 0` and the incremented `attempts` exceeds it, the
supervisor logs the fatal retry-budget message and terminates without
relaunching; in Scenario A (`maxRetries` 2, delay 1 s, growth 0), three
rapid abnormal exits yield exactly two restarts (forks at t = 2100 and
3200 ms, each 1000 ms after the corresponding exit) and the third firing
terminates the supervisor with the fatal log and no third fork. -/
theorem c5_retry_budget :
    (∀ (cfg : Config) (s : SupState) (now : ℚ),
        (restartTimerFire cfg now s).1.attempts = s.attempts + 1)
    ∧ (∀ (cfg : Config) (s : SupState) (now : ℚ),
        0 ≤ cfg.maxRetries → cfg.maxRetries < (s.attempts : Int) + 1 →
          (restartTimerFire cfg now s).1.terminated = true
          ∧ Action.fork ∉ (restartTimerFire cfg now s).2
          ∧ Action.log Level.error (maxRetriesMsg cfg) ∈ (restartTimerFire cfg now s).2)
    ∧ c5run.1.terminated = true
    ∧ forkTimes c5run.2 = [2100, 3200]
    ∧ (c5run.2.map Prod.snd).count (Action.log Level.error (maxRetriesMsg cfg5)) = 1
    ∧ c5run.1.attempts = 3
    ∧ cfg5.maxRetries = 2 := by
  constructor
  · intro cfg s now
    simp only [restartTimerFire, launch]
    repeat' split
    all_goals rfl
  constructor
  · intro cfg s now h0 h1
    simp [restartTimerFire, h0, h1]
  refine ⟨?_, ?_, ?_, ?_, rfl⟩ <;>
    norm_num +decide [c5run, run, step, startSup, launch, initState, childExit,
      monitor, restartTimerFire, windowTimerFire, cfg5, MAXQ, growC, forkTimes,
      List.filterMap, List.count_cons]

/-- State reached in Scenario A just before the third restart-timer
firing. -/
def c5wState : SupState :=
  (run cfg5 (startSup cfg5 1000).1
    [(1100, Event.childExit (some 1)),
     (2100, Event.restartFire),
     (2200, Event.childExit (some 1)),
     (3200, Event.restartFire),
     (3300, Event.childExit (some 1))]).1

/-- Claim C5 witness: the general retry-budget component applied to the
state reached just before the third firing in Scenario A. -/
theorem c5_retry_budget_witness :
    (0 : Int) ≤ cfg5.maxRetries
    ∧ (restartTimerFire cfg5 4300 c5wState).1.terminated = true :=
  ⟨by decide,
   (c5_retry_budget.2.1 cfg5 c5wState 4300 (by decide)
     (by norm_num [c5wState, run, step, startSup, launch, initState, childExit,
        monitor, restartTimerFire, windowTimerFire, cfg5, MAXQ, growC])).1⟩

/-- Claim C9: for an exit event with code 0 the abort-on-error path is
never taken — the handler behaves identically whatever `abortOnError` is
set to, and the only error-level log a code-0 exit can produce is the
rate-limit message (never the abort message). -/
theorem c9_zero_exit_ignores_abort (cfg : Config) (s : SupState) (now : ℚ) (b : Bool) :
    childExit { cfg with abortOnError := b } (some 0) now s
      = childExit { cfg with abortOnError := false } (some 0) now s
    ∧ ∀ m, Action.log Level.error m ∈ (childExit cfg (some 0) now s).2 →
        m = rateLimitMsg := by
  constructor
  · simp [childExit, monitor, stoppedMsg]
  · intro m hm
    simp only [childExit, monitor] at hm
    repeat' split at hm
    all_goals simp_all

/-- State for the claim C9 witness: the rate limiter is about to fire, so
the exit produces its one possible error-level log. -/
def c9s : SupState :=
  { child := true
    liveChildren := 1
    starts := 5
    wait := 1000
    attempts := 0
    startTime := 1000
    forcekill := false
    terminated := false
    pendingRestartAt := none
    windowTimerAt := none }

/-- Configuration for the claim C9 witness. -/
def c9cfg : Config :=
  { script := "app.js"
    maxRestarts := 5
    maxRetries := -1
    restartDelay := 1
    restartDelayGrowth := 1/4
    abortOnError := false
    stopParentFirst := false }

/-- Claim C9 witness: the theorem applied at a concrete code-0 exit. -/
theorem c9_zero_exit_ignores_abort_witness :
    childExit { c9cfg with abortOnError := true } (some 0) 2000 c9s
      = childExit { c9cfg with abortOnError := false } (some 0) 2000 c9s
    ∧ rateLimitMsg = rateLimitMsg :=
  ⟨(c9_zero_exit_ignores_abort c9cfg c9s 2000 true).1,
   (c9_zero_exit_ignores_abort c9cfg c9s 2000 true).2 rateLimitMsg
     (by norm_num [childExit, monitor, c9s, c9cfg, MAXQ])⟩

/-- One failure cycle for claim C4: an abnormal exit (code 1) followed by
the firing of the restart timer it schedules.  The exit-event timestamp
is irrelevant to the resulting state as long as the rate limiter does not
fire (its time guard is only consulted when `starts` has reached
`maxRestarts`), so 0 is passed. -/
def cycleStep (cfg : Config) (s : SupState) : SupState :=
  let s1 := (childExit cfg (some 1) 0 s).1
  match s1.pendingRestartAt with
  | some t => (restartTimerFire cfg t s1).1
  | none => s1

/-- State after `n` failure cycles from a fresh start at t = 1000 ms. -/
def cyclesFrom (cfg : Config) (s : SupState) : Nat → SupState
  | 0 => s
  | n + 1 => cycleStep cfg (cyclesFrom cfg s n)

/-- Closed form of the supervisor state after `k` failure cycles: the
wait has been multiplied by the growth factor once per cycle. -/
def c4state (cfg : Config) (k : Nat) : SupState :=
  { child := true
    liveChildren := 1
    starts := k + 1
    wait := cfg.restartDelay * 1000 * growC cfg ^ k
    attempts := k
    startTime := 1000
    forcekill := false
    terminated := false
    pendingRestartAt := none
    windowTimerAt := some 61001 }

/-- After `k` failure cycles with no abort, no retry cap, and the rate
limiter not yet reached, the supervisor state is the closed form
`c4state`. -/
lemma cyclesFrom_eq_c4state (cfg : Config)
    (hA : cfg.abortOnError = false) (hR : cfg.maxRetries < 0) :
    ∀ k : Nat, (k : Int) + 1 < cfg.maxRestarts →
      cyclesFrom cfg (startSup cfg 1000).1 k = c4state cfg k := by
  intro k
  induction k with
  | zero =>
    intro _
    simp [cyclesFrom, startSup, launch, initState, c4state, MAXQ]
    norm_num
  | succ k ih =>
    intro h
    have hk : (k : Int) + 1 < cfg.maxRestarts := by
      push_cast at h
      omega
    have hks5 : (cfg.maxRestarts ≤ (k : Int) + 1) = False := eq_false (by omega)
    have hmr3 : ((0 : Int) ≤ cfg.maxRetries) = False := eq_false (by omega)
    rw [cyclesFrom, ih hk]
    simp only [cycleStep, childExit, monitor, c4state]
    simp only [hA]
    norm_num [hks5, hmr3, restartTimerFire, launch, growC, pow_succ]
    ring

/-- Claim C4: after `n` consecutive abnormal exits with no intervening
stable window (and with the abort, retry-cap and rate-limit policies not
firing), the wait scheduled before the `(n+1)`-th restart equals
`restartDelay * (1 + restartDelayGrowth) ^ n` (in milliseconds:
`restartDelay * 1000 * growC ^ n`): the current wait is multiplied by
`(1 + restartDelayGrowth)` exactly once per restart cycle. -/
theorem c4_backoff_growth (cfg : Config) (n : Nat) (t : ℚ)
    (hA : cfg.abortOnError = false) (hR : cfg.maxRetries < 0)
    (hM : (n : Int) + 1 < cfg.maxRestarts) :
    (childExit cfg (some 1) t (cyclesFrom cfg (startSup cfg 1000).1 n)).1.pendingRestartAt
      = some (t + cfg.restartDelay * 1000 * growC cfg ^ n)
    ∧ (cyclesFrom cfg (startSup cfg 1000).1 n).wait
      = cfg.restartDelay * 1000 * growC cfg ^ n := by
  rw [cyclesFrom_eq_c4state cfg hA hR n hM]
  have hns : (cfg.maxRestarts ≤ (n : Int) + 1) = False := by
    push_cast at hM
    exact eq_false (by omega)
  constructor
  · simp [childExit, monitor, c4state, hA, hns]
  · rfl

/-- Configuration for the claim C4 witness: the container defaults. -/
def c4cfg : Config :=
  { script := "app.js"
    maxRestarts := 5
    maxRetries := -1
    restartDelay := 1
    restartDelayGrowth := 1/4
    abortOnError := false
    stopParentFirst := false }

/-- Claim C4 witness: after 2 cycles the scheduled wait is
`1000 * (5/4)^2 = 1562.5` ms. -/
theorem c4_backoff_growth_witness :
    c4cfg.abortOnError = false
    ∧ c4cfg.maxRetries < 0
    ∧ ((2 : Nat) : Int) + 1 < c4cfg.maxRestarts
    ∧ (childExit c4cfg (some 1) 9000
        (cyclesFrom c4cfg (startSup c4cfg 1000).1 2)).1.pendingRestartAt
        = some (9000 + c4cfg.restartDelay * 1000 * growC c4cfg ^ 2) :=
  ⟨rfl, by decide, by decide,
   (c4_backoff_growth c4cfg 2 9000 rfl (by decide) (by decide)).1⟩

/-- Events of the normal supervision loop: everything except
`uncaughtException` (whose handler calls `launch` unconditionally). -/
def normalEvent : Event → Prop
  | Event.uncaughtException _ => False
  | _ => True

/-- Single-live-child invariant: at most one child is alive; moreover,
while the supervisor has not terminated, the live-child count matches the
`child` handle and a set handle excludes a pending restart timer. -/
def oneChildInv (s : SupState) : Prop :=
  s.liveChildren ≤ 1 ∧
    (s.terminated = false →
      s.liveChildren = (if s.child then 1 else 0) ∧
        (s.child = true → s.pendingRestartAt = none))

set_option maxRecDepth 8192 in
/-- Claim C6 (amended): along the normal supervision loop — child exits,
timer firings and shutdown signals — at most one child is ever alive: the
invariant holds after start and is preserved by every normal event.  The
`uncaughtException` handler, excluded here, can fork a second child while
one is alive (see the counterexample). -/
theorem c6_single_live_child (cfg : Config) (s : SupState) (t : ℚ) (e : Event)
    (hI : oneChildInv s) (hn : normalEvent e) :
    oneChildInv (step cfg s t e).1
    ∧ (step cfg s t e).1.liveChildren ≤ 1
    ∧ (∀ t0 : ℚ, oneChildInv (startSup cfg t0).1) := by
  have hstart : ∀ t0 : ℚ, oneChildInv (startSup cfg t0).1 := by
    intro t0
    simp [startSup, launch, initState, oneChildInv]
  have hpres : oneChildInv (step cfg s t e).1 := by
    by_cases hterm : s.terminated = true
    · simpa [step, hterm] using hI
    have hterm2 : s.terminated = false := by simpa using hterm
    have h1 : s.liveChildren ≤ 1 := hI.1
    have hL : s.liveChildren = if s.child then 1 else 0 := (hI.2 hterm2).1
    have hP : s.child = true → s.pendingRestartAt = none := (hI.2 hterm2).2
    cases e with
    | childExit code =>
      by_cases hz : s.liveChildren = 0
      · simpa [step, hterm, hz] using hI
      have hchild : s.child = true := by
        cases hc : s.child
        · rw [hc] at hL
          simp at hL
          exact absurd hL hz
        · rfl
      have hlive : s.liveChildren = 1 := by
        rw [hchild] at hL
        simpa using hL
      simp only [step, hterm, hz, if_false, if_neg hterm]
      simp only [childExit, monitor]
      repeat' split
      all_goals
        first
          | exact absurd trivial (by assumption)
          | exact absurd rfl (by assumption)
          | simp_all [oneChildInv]
    | restartFire =>
      simp only [step, if_neg hterm]
      cases hp : s.pendingRestartAt with
      | none => simpa using hI
      | some tp =>
        by_cases htp : tp = t
        · have hchild2 : s.child = false := by
            cases hc : s.child
            · rfl
            · have := hP hc
              rw [hp] at this
              exact absurd this (by simp)
          have hlive0 : s.liveChildren = 0 := by
            rw [hchild2] at hL
            simpa using hL
          simp only [htp, if_pos rfl]
          simp only [restartTimerFire, launch]
          repeat' split
          all_goals
            first
              | exact absurd trivial (by assumption)
              | exact absurd rfl (by assumption)
              | simp_all [oneChildInv]
        · simpa [htp] using hI
    | windowFire =>
      simp only [step, if_neg hterm]
      cases hw : s.windowTimerAt with
      | none => simpa using hI
      | some tw =>
        by_cases htw : tw = t
        · simp only [htw, if_pos rfl, windowTimerFire]
          exact ⟨h1, fun h => ⟨by simpa using hL, fun hc => by simpa using hP hc⟩⟩
        · simpa [htw] using hI
    | shutdownSignal =>
      simp only [step, if_neg hterm, killkid]
      repeat' split
      all_goals exact ⟨h1, fun h => ⟨hL, hP⟩⟩
    | uncaughtException msg => exact hn.elim
  exact ⟨hpres, hpres.1, hstart⟩

/-- Configuration for claim C6. -/
def c6cfg : Config :=
  { script := "app.js"
    maxRestarts := 5
    maxRetries := -1
    restartDelay := 1
    restartDelayGrowth := 1/4
    abortOnError := false
    stopParentFirst := false }

/-- State with one live child for the claim C6 witness. -/
def c6wState : SupState :=
  { child := true
    liveChildren := 1
    starts := 1
    wait := 1000
    attempts := 0
    startTime := 1000
    forcekill := false
    terminated := false
    pendingRestartAt := none
    windowTimerAt := some 61001 }

/-- Claim C6 witness: the invariant theorem applied to a concrete state
and a concrete child-exit event. -/
theorem c6_single_live_child_witness :
    oneChildInv c6wState
    ∧ (step c6cfg c6wState 2000 (Event.childExit (some 1))).1.liveChildren ≤ 1 := by
  have hInv : oneChildInv c6wState := by simp [oneChildInv, c6wState]
  exact ⟨hInv,
    (c6_single_live_child c6cfg c6wState 2000 (Event.childExit (some 1)) hInv
      trivial).2.1⟩

/-- Run for the claim C6 counterexample: start the supervisor (one child
alive), then deliver an `uncaughtException`, whose handler calls `launch`
with no guard on the existing child. -/
def c6run : SupState × List (ℚ × Action) :=
  run c6cfg (startSup c6cfg 1000).1 [(1500, Event.uncaughtException "boom")]

/-- Claim C6, counterexample: an `uncaughtException` delivered while the
child is alive forks a second child: two children are then live at once,
refuting the at-most-one-live-child invariant for the full program. -/
theorem c6_counterexample :
    (startSup c6cfg 1000).1.child = true
    ∧ (startSup c6cfg 1000).1.liveChildren = 1
    ∧ c6run.1.liveChildren = 2 := by
  norm_num +decide [c6run, run, step, startSup, launch, initState, c6cfg, MAXQ]

end Windows
